import Mathlib

/-!
Verification development for the Tses-Backend OTP authentication gateway
(`api/accounts/views.py`, `api/accounts/serializers.py`,
`api/accounts/password.py`).

The backend keeps all OTP/rate-limit state in Redis.  We embed the Redis
client as a store of entries keyed by the exact keys the code builds
(`otp:{email}`, `ratelimit:email:{email}`, `ratelimit:ip:{ip}`,
`failed_otp:{email}`).  The four key prefixes are pairwise non-overlapping
(they start with distinct characters once the common prefix is consumed),
so keys are modelled as a tagged type `RKey`; `RKey.toKeyString` recovers
the literal key strings and is injective.

Time is modelled by an explicit clock `Store.now` (seconds); a key with an
absolute expiry `t` is visible while `now < t`, and `Store.tick` advances
the clock.  Redis `INCR` creates absent keys at 1 with no expiry and
preserves the TTL of existing keys; `EXPIRE` sets an absolute deadline
`now + seconds`; `TTL` reports `-2` for absent keys, `-1` for keys without
expiry, and the remaining seconds otherwise; `SETEX` writes a string value
with an expiry; `DEL` removes the key.  Values are strings; Redis integers
(counters created by `INCR`) are carried as `RVal.vnum` and rendered as
decimal strings on read, matching the `decode_responses=True` client.
-/

/-- A Redis value: either a plain string (OTP codes written by `SETEX`) or
an integer counter (written by `INCR`). -/
inductive RVal where
  | vstr : String → RVal
  | vnum : Nat → RVal
deriving DecidableEq, Repr

/-- The string the `decode_responses=True` client returns for a value. -/
def RVal.asStr : RVal → String
  | .vstr s => s
  | .vnum n => toString n

/-- The integer Redis/`int()` reads off a value.  In every state reachable
by this backend, counters are `vnum` values, so the `vstr` fallback
(decimal parse, defaulting to 0) is never exercised. -/
def RVal.asNat : RVal → Nat
  | .vstr s => (s.toNat?).getD 0
  | .vnum n => n

/-- The Redis keys the backend constructs, one constructor per f-string
pattern in `views.py`. -/
inductive RKey where
  | otp : String → RKey
  | rlEmail : String → RKey
  | rlIp : String → RKey
  | failed : String → RKey
deriving DecidableEq, Repr

/-- The literal Redis key string each `RKey` stands for. -/
def RKey.toKeyString : RKey → String
  | .otp e => "otp:" ++ e
  | .rlEmail e => "ratelimit:email:" ++ e
  | .rlIp ip => "ratelimit:ip:" ++ ip
  | .failed e => "failed_otp:" ++ e

/-- A stored entry: a value plus an optional absolute expiry time. -/
structure Entry where
  value : RVal
  expiresAt : Option Nat
deriving DecidableEq, Repr

/-- The Redis store together with the current clock (seconds). -/
structure Store where
  now : Nat
  data : RKey → Option Entry

namespace Store

/-- The entry visible at `k`: expired entries behave as absent. -/
def live (s : Store) (k : RKey) : Option Entry :=
  match s.data k with
  | none => none
  | some e =>
    match e.expiresAt with
    | none => some e
    | some t => if s.now < t then some e else none

/-- Raw write of an entry (or removal) at a key. -/
def write (s : Store) (k : RKey) (v : Option Entry) : Store :=
  ⟨s.now, fun k2 => if k2 = k then v else s.data k2⟩

/-- Redis `GET` through the decoding client: the value as a string. -/
def getStr (s : Store) (k : RKey) : Option String :=
  (s.live k).map (fun e => e.value.asStr)

/-- Redis `GET` followed by an integer read (`int(...)` in Python). -/
def getNat (s : Store) (k : RKey) : Option Nat :=
  (s.live k).map (fun e => e.value.asNat)

/-- Redis `INCR`: creates absent (or expired) keys at 1 with no expiry,
increments existing keys preserving their expiry; returns the new value. -/
def incr (s : Store) (k : RKey) : Nat × Store :=
  match s.live k with
  | none => (1, s.write k (some ⟨.vnum 1, none⟩))
  | some e =>
    let n := e.value.asNat + 1
    (n, s.write k (some ⟨.vnum n, e.expiresAt⟩))

/-- Redis `EXPIRE key secs`: sets the absolute deadline `now + secs` on a
visible key; no effect on absent keys. -/
def expire (s : Store) (k : RKey) (secs : Nat) : Store :=
  match s.live k with
  | none => s
  | some e => s.write k (some ⟨e.value, some (s.now + secs)⟩)

/-- Redis `TTL`: -2 for absent keys, -1 for keys without expiry, remaining
seconds otherwise. -/
def ttl (s : Store) (k : RKey) : Int :=
  match s.live k with
  | none => -2
  | some e =>
    match e.expiresAt with
    | none => -1
    | some t => (t : Int) - (s.now : Int)

/-- Redis `SETEX key secs v`. -/
def setex (s : Store) (k : RKey) (secs : Nat) (v : String) : Store :=
  s.write k (some ⟨.vstr v, some (s.now + secs)⟩)

/-- Redis `DEL`. -/
def del (s : Store) (k : RKey) : Store :=
  s.write k none

/-- Advance the clock by `d` seconds. -/
def tick (s : Store) (d : Nat) : Store :=
  ⟨s.now + d, s.data⟩

end Store

/-! ## Configuration constants

Default values of the environment-overridable settings in
`OTPService` and `RateLimiter` (`views.py`). -/

def OTP_LENGTH : Nat := 6
def OTP_EXPIRY_SECONDS : Nat := 300
def EMAIL_LIMIT : Nat := 3
def EMAIL_WINDOW_SECONDS : Nat := 600
def IP_LIMIT : Nat := 10
def IP_WINDOW_SECONDS : Nat := 3600
def FAILED_LIMIT : Nat := 5
def FAILED_WINDOW_SECONDS : Nat := 900

/-! ## OTPService (`views.py` lines 51-83) -/

/-- `OTPService.store_otp`: store the OTP under `otp:{email}` with a
5-minute TTL. -/
def store_otp (s : Store) (email otp : String) : Store :=
  s.setex (RKey.otp email) OTP_EXPIRY_SECONDS otp

/-- `OTPService.verify_otp`: fetch the stored code; `if not stored_otp`
(absent, or the falsy empty string) return false; on mismatch return
false; on match delete the key (one-time use) and return true. -/
def verify_otp (s : Store) (email otp : String) : Bool × Store :=
  let key := RKey.otp email
  match s.getStr key with
  | none => (false, s)
  | some stored =>
    if stored = "" then (false, s)
    else if stored ≠ otp then (false, s)
    else (true, s.del key)

/-! ## RateLimiter (`views.py` lines 86-171) -/

/-- `RateLimiter.is_email_rate_limited`: increment
`ratelimit:email:{email}`; on the first increment set the window TTL;
limited once the count exceeds `EMAIL_LIMIT`, reporting the remaining
TTL. -/
def is_email_rate_limited (s : Store) (email : String) : (Bool × Int) × Store :=
  let key := RKey.rlEmail email
  let r := s.incr key
  let s2 := if r.1 = 1 then r.2.expire key EMAIL_WINDOW_SECONDS else r.2
  if r.1 > EMAIL_LIMIT then ((true, s2.ttl key), s2)
  else ((false, 0), s2)

/-- `RateLimiter.is_ip_rate_limited`: same shape over
`ratelimit:ip:{ip_address}` with the IP limit and window. -/
def is_ip_rate_limited (s : Store) (ip_address : String) : (Bool × Int) × Store :=
  let key := RKey.rlIp ip_address
  let r := s.incr key
  let s2 := if r.1 = 1 then r.2.expire key IP_WINDOW_SECONDS else r.2
  if r.1 > IP_LIMIT then ((true, s2.ttl key), s2)
  else ((false, 0), s2)

/-- `RateLimiter.track_failed_attempt`: increment `failed_otp:{email}`;
on the first increment set the window TTL; locked once the post-increment
count reaches `FAILED_LIMIT` (note `≥`, not `>`). -/
def track_failed_attempt (s : Store) (email : String) : (Bool × Int) × Store :=
  let key := RKey.failed email
  let r := s.incr key
  let s2 := if r.1 = 1 then r.2.expire key FAILED_WINDOW_SECONDS else r.2
  if r.1 ≥ FAILED_LIMIT then ((true, s2.ttl key), s2)
  else ((false, 0), s2)

/-- `RateLimiter.is_email_locked`: pure read of `failed_otp:{email}`;
locked when the counter is present (truthy) and `int(count) ≥
FAILED_LIMIT`, reporting the remaining TTL.  The Python truthiness test
`if count and ...` is absorbed by `getNat`: an absent key yields `none`,
and the empty string (the only falsy non-absent string) parses to 0,
below the threshold. -/
def is_email_locked (s : Store) (email : String) : Bool × Int :=
  let key := RKey.failed email
  match s.getNat key with
  | none => (false, 0)
  | some n =>
    if n ≥ FAILED_LIMIT then (true, s.ttl key)
    else (false, 0)

/-- `RateLimiter.clear_failed_attempts`: delete the failure counter. -/
def clear_failed_attempts (s : Store) (email : String) : Store :=
  s.del (RKey.failed email)

/-! ## Serializers (`serializers.py` lines 12-33)

`OTPRequestSerializer.validate_email` and
`OTPVerifySerializer.validate_email` both `return value.lower()`.  We
model Python `str.lower()` on the ASCII range (emails here are ASCII);
the format validation done by Django's `EmailField` and the 6-digit
check on the OTP field are orthogonal to the claims and are modelled by
the flows taking already-validated field values. -/

/-- ASCII lowercase of one character (Python `str.lower` on ASCII). -/
def pyLowerChar (c : Char) : Char :=
  if 'A' ≤ c ∧ c ≤ 'Z' then Char.ofNat (c.toNat + 32) else c

/-- `validate_email`: Python `value.lower()` (ASCII range). -/
def validate_email (value : String) : String :=
  ⟨value.data.map pyLowerChar⟩

/-- `OTPVerifySerializer.validate_otp`: exactly six digits. -/
def validate_otp (value : String) : Bool :=
  value.length = OTP_LENGTH && value.data.all Char.isDigit

/-! ## OTPRequestView.post (`views.py` lines 225-318) -/

/-- Outcome of `POST /otp/request` after serializer validation.  The
constructor records the HTTP-visible discrimination: 429 on either rate
limit (with its `retry_after_seconds`), 202 on acceptance. -/
inductive ReqResult where
  | emailLimited : Int → ReqResult
  | ipLimited : Int → ReqResult
  | accepted : String → Nat → ReqResult
deriving DecidableEq, Repr

/-- `OTPRequestView.post` after validation: email rate limit, then IP
rate limit (each check already increments), then generate and store the
OTP.  `generate_otp` draws `OTP_LENGTH` random digits; the drawn code is
passed in as the oracle argument `code`. -/
def otpRequestFlow (s : Store) (email ip_address code : String) : ReqResult × Store :=
  let er := is_email_rate_limited s email
  if er.1.1 then (ReqResult.emailLimited er.1.2, er.2)
  else
    let ir := is_ip_rate_limited er.2 ip_address
    if ir.1.1 then (ReqResult.ipLimited ir.1.2, ir.2)
    else
      let s3 := store_otp ir.2 email code
      (ReqResult.accepted email OTP_EXPIRY_SECONDS, s3)

/-- The request endpoint including the serializer: the email is
lowercased before any store access. -/
def otpRequestEndpoint (s : Store) (rawEmail ip_address code : String) :
    ReqResult × Store :=
  otpRequestFlow s (validate_email rawEmail) ip_address code

/-! ## OTPVerifyView.post (`views.py` lines 380-503) -/

/-- Outcome of `POST /otp/verify` after serializer validation: 423 from
the pre-check (`locked`), 423 from the failure that crosses the
threshold (`lockedNow`), 400 on a wrong/expired code, 201 on success. -/
inductive VerifyResult where
  | locked : Int → VerifyResult
  | lockedNow : Int → VerifyResult
  | invalidOtp : VerifyResult
  | success : String → VerifyResult
deriving DecidableEq, Repr

/-- `OTPVerifyView.post` after validation: lockout pre-check; else
verify the code; on failure track the attempt and report lockout when it
trips; on success clear the failure counter (the user get-or-create and
JWT minting are external collaborators with no store effect). -/
def otpVerifyFlow (s : Store) (email otp : String) : VerifyResult × Store :=
  let lk := is_email_locked s email
  if lk.1 then (VerifyResult.locked lk.2, s)
  else
    let vr := verify_otp s email otp
    if vr.1 = false then
      let tr := track_failed_attempt vr.2 email
      if tr.1.1 then (VerifyResult.lockedNow tr.1.2, tr.2)
      else (VerifyResult.invalidOtp, tr.2)
    else
      let s2 := clear_failed_attempts vr.2 email
      (VerifyResult.success email, s2)

/-- The verify endpoint including the serializer lowercasing. -/
def otpVerifyEndpoint (s : Store) (rawEmail otp : String) :
    VerifyResult × Store :=
  otpVerifyFlow s (validate_email rawEmail) otp

/-! ## ResetPasswordRequestToken.post (`password.py` lines 82-107)

The password-reset flow lives on the relational side, not Redis; for the
response-shape claim we model the branch structure of the handler over
the facts it branches on (`email` supplied or not, user row exists or
not).  `CustomResponse(success, message, status_code)` from
`services.py` is the JSON body together with the HTTP status. -/

/-- `CustomResponse`: body flags plus the HTTP status code. -/
structure ApiResponse where
  success : Bool
  message : String
  status_code : Nat
deriving DecidableEq, Repr

/-- `ResetPasswordRequestToken.post`: 400 when no email is supplied;
`CustomResponse(True, "Email address not found!", 404)` when no user row
matches; otherwise the activation-code mutation (external DB) and a 200
acknowledgement. -/
def resetPasswordRequestToken (email : Option String)
    (userExists : String → Bool) : ApiResponse :=
  match email with
  | none => ⟨false, "Kindly provide the email address.", 400⟩
  | some e =>
    if userExists e then ⟨true, "A token has been sent to your email.", 200⟩
    else ⟨true, "Email address not found!", 404⟩

/-! ## Call-sequence runners

Iterating the handlers models a client issuing several requests.  The
timed runner advances the clock by each listed gap (seconds) before the
corresponding call; the verify runners make all calls at one instant. -/

/-- Run a store-transforming check once per listed gap, ticking the
clock by the gap first; collects the per-call results. -/
def runTimed (f : Store → (Bool × Int) × Store) :
    List Nat → Store → List (Bool × Int) × Store
  | [], s => ([], s)
  | d :: ds, s =>
    let r := f (s.tick d)
    let rest := runTimed f ds r.2
    (r.1 :: rest.1, rest.2)

/-- A sequence of `OTPService.verify_otp` calls at one instant. -/
def runVerifyOtp (email : String) :
    List String → Store → List Bool × Store
  | [], s => ([], s)
  | p :: ps, s =>
    let r := verify_otp s email p
    let rest := runVerifyOtp email ps r.2
    (r.1 :: rest.1, rest.2)

/-- A sequence of `OTPVerifyView.post` calls at one instant. -/
def runVerifyFlow (email : String) :
    List String → Store → List VerifyResult × Store
  | [], s => ([], s)
  | p :: ps, s =>
    let r := otpVerifyFlow s email p
    let rest := runVerifyFlow email ps r.2
    (r.1 :: rest.1, rest.2)

/-- Specification of the per-call outputs of an increment-then-check
window counter: starting from prior count `k` at clock `now` with window
deadline `texp`, the call after gap `d` reports limited exactly when the
post-increment count exceeds `limit`, and then carries the remaining TTL
`texp - now` as its retry hint. -/
def counterSpecOutputs (limit : Nat) :
    Nat → Nat → Nat → List Nat → List (Bool × Int)
  | _, _, _, [] => []
  | k, now, texp, d :: ds =>
    let now2 := now + d
    let out : Bool × Int :=
      if k + 1 > limit then (true, (texp : Int) - (now2 : Int)) else (false, 0)
    out :: counterSpecOutputs limit (k + 1) now2 texp ds

/-! ## Basic store lemmas -/

namespace Store

@[simp] theorem write_now (s : Store) (k : RKey) (v : Option Entry) :
    (s.write k v).now = s.now := rfl

@[simp] theorem write_data_self (s : Store) (k : RKey) (v : Option Entry) :
    (s.write k v).data k = v := by
  simp [write]

theorem write_data_ne (s : Store) (k : RKey) (v : Option Entry)
    (k2 : RKey) (h : k2 ≠ k) : (s.write k v).data k2 = s.data k2 := by
  simp [write, h]

@[simp] theorem tick_now (s : Store) (d : Nat) : (s.tick d).now = s.now + d := rfl

@[simp] theorem tick_data (s : Store) (d : Nat) (k : RKey) :
    (s.tick d).data k = s.data k := rfl

theorem live_of_data_window (s : Store) (k : RKey) (v : RVal) (t : Nat)
    (hd : s.data k = some ⟨v, some t⟩) (ht : s.now < t) :
    s.live k = some ⟨v, some t⟩ := by
  simp [live, hd, ht]

theorem live_none_of_data_none (s : Store) (k : RKey)
    (hd : s.data k = none) : s.live k = none := by
  simp [live, hd]

theorem live_none_tick (s : Store) (k : RKey) (d : Nat)
    (h : s.live k = none) : (s.tick d).live k = none := by
  cases hd : s.data k with
  | none =>
    simp [live, hd]
  | some e =>
    cases he : e.expiresAt with
    | none =>
      exfalso
      simp [live, hd, he] at h
    | some t =>
      have ht : ¬ s.now < t := by
        intro hlt
        simp [live, hd, he, hlt] at h
      have ht2 : ¬ s.now + d < t := by omega
      simp [live, hd, he, ht2]

theorem incr_now (s : Store) (k : RKey) : (s.incr k).2.now = s.now := by
  unfold incr
  split <;> rfl

theorem incr_data_ne (s : Store) (k k2 : RKey) (h : k2 ≠ k) :
    (s.incr k).2.data k2 = s.data k2 := by
  unfold incr
  split <;> simp [write, h]

theorem expire_now (s : Store) (k : RKey) (secs : Nat) :
    (s.expire k secs).now = s.now := by
  unfold expire
  split <;> rfl

theorem expire_data_ne (s : Store) (k : RKey) (secs : Nat)
    (k2 : RKey) (h : k2 ≠ k) : (s.expire k secs).data k2 = s.data k2 := by
  unfold expire
  split
  · rfl
  · simp [write, h]

@[simp] theorem del_now (s : Store) (k : RKey) : (s.del k).now = s.now := rfl

@[simp] theorem del_data_self (s : Store) (k : RKey) : (s.del k).data k = none := by
  simp [del]

theorem del_data_ne (s : Store) (k k2 : RKey) (h : k2 ≠ k) :
    (s.del k).data k2 = s.data k2 := by
  simp [del, write, h]

@[simp] theorem setex_now (s : Store) (k : RKey) (secs : Nat) (v : String) :
    (s.setex k secs v).now = s.now := rfl

@[simp] theorem setex_data_self (s : Store) (k : RKey) (secs : Nat) (v : String) :
    (s.setex k secs v).data k = some ⟨.vstr v, some (s.now + secs)⟩ := by
  simp [setex]

theorem setex_data_ne (s : Store) (k : RKey) (secs : Nat) (v : String)
    (k2 : RKey) (h : k2 ≠ k) : (s.setex k secs v).data k2 = s.data k2 := by
  simp [setex, write, h]

theorem getStr_of_data_window (s : Store) (k : RKey) (c : String) (t : Nat)
    (hd : s.data k = some ⟨.vstr c, some t⟩) (ht : s.now < t) :
    s.getStr k = some c := by
  simp [getStr, live_of_data_window s k _ t hd ht, RVal.asStr]

theorem getStr_none_of_data_none (s : Store) (k : RKey)
    (hd : s.data k = none) : s.getStr k = none := by
  simp [getStr, live_none_of_data_none s k hd]

theorem getNat_of_data_window (s : Store) (k : RKey) (n : Nat) (t : Nat)
    (hd : s.data k = some ⟨.vnum n, some t⟩) (ht : s.now < t) :
    s.getNat k = some n := by
  simp [getNat, live_of_data_window s k _ t hd ht, RVal.asNat]

theorem getNat_none_of_data_none (s : Store) (k : RKey)
    (hd : s.data k = none) : s.getNat k = none := by
  simp [getNat, live_none_of_data_none s k hd]

theorem ttl_of_data_window (s : Store) (k : RKey) (v : RVal) (t : Nat)
    (hd : s.data k = some ⟨v, some t⟩) (ht : s.now < t) :
    s.ttl k = (t : Int) - (s.now : Int) := by
  simp [ttl, live_of_data_window s k v t hd ht]

end Store

/-! ## Single-call characterisation of the window counters -/

/-- The email limiter leaves the clock unchanged. -/
theorem email_rl_now (s : Store) (e : String) :
    (is_email_rate_limited s e).2.now = s.now := by
  simp only [is_email_rate_limited]
  split <;> split <;> simp [Store.expire_now, Store.incr_now]

/-- The email limiter writes only to its own counter key. -/
theorem email_rl_frame (s : Store) (e : String) (k2 : RKey)
    (h : k2 ≠ RKey.rlEmail e) :
    (is_email_rate_limited s e).2.data k2 = s.data k2 := by
  simp only [is_email_rate_limited]
  split <;> split <;> simp [Store.expire_data_ne, Store.incr_data_ne, h]

/-- Email limiter, fresh window: the first call is not limited, counts 1
and establishes the window deadline `now + EMAIL_WINDOW_SECONDS`. -/
theorem email_rl_step_fresh (s : Store) (e : String)
    (h : s.live (RKey.rlEmail e) = none) :
    (is_email_rate_limited s e).1 = (false, 0) ∧
    (is_email_rate_limited s e).2.now = s.now ∧
    (is_email_rate_limited s e).2.data (RKey.rlEmail e)
      = some ⟨.vnum 1, some (s.now + EMAIL_WINDOW_SECONDS)⟩ := by
  have hincr : s.incr (RKey.rlEmail e)
      = (1, s.write (RKey.rlEmail e) (some ⟨.vnum 1, none⟩)) := by
    unfold Store.incr
    rw [h]
  have hexp : (s.write (RKey.rlEmail e) (some ⟨.vnum 1, none⟩)).expire
        (RKey.rlEmail e) EMAIL_WINDOW_SECONDS
      = (s.write (RKey.rlEmail e) (some ⟨.vnum 1, none⟩)).write (RKey.rlEmail e)
          (some ⟨.vnum 1, some (s.now + EMAIL_WINDOW_SECONDS)⟩) := by
    unfold Store.expire
    have hlive1 : (s.write (RKey.rlEmail e) (some ⟨.vnum 1, none⟩)).live
        (RKey.rlEmail e) = some ⟨.vnum 1, none⟩ := by
      simp [Store.live]
    rw [hlive1]
    rfl
  have hmain : is_email_rate_limited s e =
      ((false, 0),
        (s.write (RKey.rlEmail e) (some ⟨.vnum 1, none⟩)).write (RKey.rlEmail e)
          (some ⟨.vnum 1, some (s.now + EMAIL_WINDOW_SECONDS)⟩)) := by
    simp [is_email_rate_limited, hincr, hexp, EMAIL_LIMIT]
  rw [hmain]
  simp

/-- Email limiter, running window holding count `k ≥ 1` with deadline
`texp`: the call counts `k + 1`, keeps the deadline, and is limited with
the remaining TTL exactly when `k + 1` exceeds the limit. -/
theorem email_rl_step_live (s : Store) (e : String) (k texp : Nat)
    (hk : 1 ≤ k)
    (hd : s.data (RKey.rlEmail e) = some ⟨.vnum k, some texp⟩)
    (ht : s.now < texp) :
    (is_email_rate_limited s e).1 =
      (if k + 1 > EMAIL_LIMIT
       then ((true : Bool), (texp : Int) - (s.now : Int))
       else ((false : Bool), (0 : Int))) ∧
    (is_email_rate_limited s e).2.now = s.now ∧
    (is_email_rate_limited s e).2.data (RKey.rlEmail e)
      = some ⟨.vnum (k + 1), some texp⟩ := by
  have hlive : s.live (RKey.rlEmail e) = some ⟨.vnum k, some texp⟩ :=
    Store.live_of_data_window s _ _ _ hd ht
  have hincr : s.incr (RKey.rlEmail e)
      = (k + 1, s.write (RKey.rlEmail e) (some ⟨.vnum (k + 1), some texp⟩)) := by
    unfold Store.incr
    rw [hlive]
    rfl
  have hne : ¬ (k + 1 = 1) := by omega
  have httl : (s.write (RKey.rlEmail e) (some ⟨.vnum (k + 1), some texp⟩)).ttl
      (RKey.rlEmail e) = (texp : Int) - (s.now : Int) := by
    have := Store.ttl_of_data_window
      (s.write (RKey.rlEmail e) (some ⟨.vnum (k + 1), some texp⟩))
      (RKey.rlEmail e) (.vnum (k + 1)) texp (by simp) (by simpa using ht)
    simpa using this
  have hmain : is_email_rate_limited s e =
      ((if k + 1 > EMAIL_LIMIT
        then ((true : Bool), (texp : Int) - (s.now : Int))
        else ((false : Bool), (0 : Int))),
        s.write (RKey.rlEmail e) (some ⟨.vnum (k + 1), some texp⟩)) := by
    by_cases hgt : k + 1 > EMAIL_LIMIT
    · simp [is_email_rate_limited, hincr, hne, hgt, httl]
    · simp [is_email_rate_limited, hincr, hne, hgt]
  rw [hmain]
  simp

/-- The IP limiter leaves the clock unchanged. -/
theorem ip_rl_now (s : Store) (ip : String) :
    (is_ip_rate_limited s ip).2.now = s.now := by
  simp only [is_ip_rate_limited]
  split <;> split <;> simp [Store.expire_now, Store.incr_now]

/-- The IP limiter writes only to its own counter key. -/
theorem ip_rl_frame (s : Store) (ip : String) (k2 : RKey)
    (h : k2 ≠ RKey.rlIp ip) :
    (is_ip_rate_limited s ip).2.data k2 = s.data k2 := by
  simp only [is_ip_rate_limited]
  split <;> split <;> simp [Store.expire_data_ne, Store.incr_data_ne, h]

/-- IP limiter, fresh window: not limited, counts 1, sets the window. -/
theorem ip_rl_step_fresh (s : Store) (ip : String)
    (h : s.live (RKey.rlIp ip) = none) :
    (is_ip_rate_limited s ip).1 = (false, 0) ∧
    (is_ip_rate_limited s ip).2.now = s.now ∧
    (is_ip_rate_limited s ip).2.data (RKey.rlIp ip)
      = some ⟨.vnum 1, some (s.now + IP_WINDOW_SECONDS)⟩ := by
  have hincr : s.incr (RKey.rlIp ip)
      = (1, s.write (RKey.rlIp ip) (some ⟨.vnum 1, none⟩)) := by
    unfold Store.incr
    rw [h]
  have hexp : (s.write (RKey.rlIp ip) (some ⟨.vnum 1, none⟩)).expire
        (RKey.rlIp ip) IP_WINDOW_SECONDS
      = (s.write (RKey.rlIp ip) (some ⟨.vnum 1, none⟩)).write (RKey.rlIp ip)
          (some ⟨.vnum 1, some (s.now + IP_WINDOW_SECONDS)⟩) := by
    unfold Store.expire
    have hlive1 : (s.write (RKey.rlIp ip) (some ⟨.vnum 1, none⟩)).live
        (RKey.rlIp ip) = some ⟨.vnum 1, none⟩ := by
      simp [Store.live]
    rw [hlive1]
    rfl
  have hmain : is_ip_rate_limited s ip =
      ((false, 0),
        (s.write (RKey.rlIp ip) (some ⟨.vnum 1, none⟩)).write (RKey.rlIp ip)
          (some ⟨.vnum 1, some (s.now + IP_WINDOW_SECONDS)⟩)) := by
    simp [is_ip_rate_limited, hincr, hexp, IP_LIMIT]
  rw [hmain]
  simp

/-- IP limiter, running window with count `k ≥ 1` and deadline `texp`. -/
theorem ip_rl_step_live (s : Store) (ip : String) (k texp : Nat)
    (hk : 1 ≤ k)
    (hd : s.data (RKey.rlIp ip) = some ⟨.vnum k, some texp⟩)
    (ht : s.now < texp) :
    (is_ip_rate_limited s ip).1 =
      (if k + 1 > IP_LIMIT
       then ((true : Bool), (texp : Int) - (s.now : Int))
       else ((false : Bool), (0 : Int))) ∧
    (is_ip_rate_limited s ip).2.now = s.now ∧
    (is_ip_rate_limited s ip).2.data (RKey.rlIp ip)
      = some ⟨.vnum (k + 1), some texp⟩ := by
  have hlive : s.live (RKey.rlIp ip) = some ⟨.vnum k, some texp⟩ :=
    Store.live_of_data_window s _ _ _ hd ht
  have hincr : s.incr (RKey.rlIp ip)
      = (k + 1, s.write (RKey.rlIp ip) (some ⟨.vnum (k + 1), some texp⟩)) := by
    unfold Store.incr
    rw [hlive]
    rfl
  have hne : ¬ (k + 1 = 1) := by omega
  have httl : (s.write (RKey.rlIp ip) (some ⟨.vnum (k + 1), some texp⟩)).ttl
      (RKey.rlIp ip) = (texp : Int) - (s.now : Int) := by
    have := Store.ttl_of_data_window
      (s.write (RKey.rlIp ip) (some ⟨.vnum (k + 1), some texp⟩))
      (RKey.rlIp ip) (.vnum (k + 1)) texp (by simp) (by simpa using ht)
    simpa using this
  have hmain : is_ip_rate_limited s ip =
      ((if k + 1 > IP_LIMIT
        then ((true : Bool), (texp : Int) - (s.now : Int))
        else ((false : Bool), (0 : Int))),
        s.write (RKey.rlIp ip) (some ⟨.vnum (k + 1), some texp⟩)) := by
    by_cases hgt : k + 1 > IP_LIMIT
    · simp [is_ip_rate_limited, hincr, hne, hgt, httl]
    · simp [is_ip_rate_limited, hincr, hne, hgt]
  rw [hmain]
  simp

/-- The failure tracker leaves the clock unchanged. -/
theorem track_failed_now (s : Store) (e : String) :
    (track_failed_attempt s e).2.now = s.now := by
  simp only [track_failed_attempt]
  split <;> split <;> simp [Store.expire_now, Store.incr_now]

/-- The failure tracker writes only to its own counter key. -/
theorem track_failed_frame (s : Store) (e : String) (k2 : RKey)
    (h : k2 ≠ RKey.failed e) :
    (track_failed_attempt s e).2.data k2 = s.data k2 := by
  simp only [track_failed_attempt]
  split <;> split <;> simp [Store.expire_data_ne, Store.incr_data_ne, h]

/-- Failure tracker, fresh window: the first failure is below the
threshold, counts 1 and sets the window deadline. -/
theorem track_failed_step_fresh (s : Store) (e : String)
    (h : s.live (RKey.failed e) = none) :
    (track_failed_attempt s e).1 = (false, 0) ∧
    (track_failed_attempt s e).2.now = s.now ∧
    (track_failed_attempt s e).2.data (RKey.failed e)
      = some ⟨.vnum 1, some (s.now + FAILED_WINDOW_SECONDS)⟩ := by
  have hincr : s.incr (RKey.failed e)
      = (1, s.write (RKey.failed e) (some ⟨.vnum 1, none⟩)) := by
    unfold Store.incr
    rw [h]
  have hexp : (s.write (RKey.failed e) (some ⟨.vnum 1, none⟩)).expire
        (RKey.failed e) FAILED_WINDOW_SECONDS
      = (s.write (RKey.failed e) (some ⟨.vnum 1, none⟩)).write (RKey.failed e)
          (some ⟨.vnum 1, some (s.now + FAILED_WINDOW_SECONDS)⟩) := by
    unfold Store.expire
    have hlive1 : (s.write (RKey.failed e) (some ⟨.vnum 1, none⟩)).live
        (RKey.failed e) = some ⟨.vnum 1, none⟩ := by
      simp [Store.live]
    rw [hlive1]
    rfl
  have hmain : track_failed_attempt s e =
      ((false, 0),
        (s.write (RKey.failed e) (some ⟨.vnum 1, none⟩)).write (RKey.failed e)
          (some ⟨.vnum 1, some (s.now + FAILED_WINDOW_SECONDS)⟩)) := by
    simp [track_failed_attempt, hincr, hexp, FAILED_LIMIT]
  rw [hmain]
  simp

/-- Failure tracker, running window with count `k ≥ 1` and deadline
`texp`: counts `k + 1`, keeps the deadline, and reports locked with the
remaining TTL exactly when `k + 1` reaches `FAILED_LIMIT`. -/
theorem track_failed_step_live (s : Store) (e : String) (k texp : Nat)
    (hk : 1 ≤ k)
    (hd : s.data (RKey.failed e) = some ⟨.vnum k, some texp⟩)
    (ht : s.now < texp) :
    (track_failed_attempt s e).1 =
      (if k + 1 ≥ FAILED_LIMIT
       then ((true : Bool), (texp : Int) - (s.now : Int))
       else ((false : Bool), (0 : Int))) ∧
    (track_failed_attempt s e).2.now = s.now ∧
    (track_failed_attempt s e).2.data (RKey.failed e)
      = some ⟨.vnum (k + 1), some texp⟩ := by
  have hlive : s.live (RKey.failed e) = some ⟨.vnum k, some texp⟩ :=
    Store.live_of_data_window s _ _ _ hd ht
  have hincr : s.incr (RKey.failed e)
      = (k + 1, s.write (RKey.failed e) (some ⟨.vnum (k + 1), some texp⟩)) := by
    unfold Store.incr
    rw [hlive]
    rfl
  have hne : ¬ (k + 1 = 1) := by omega
  have httl : (s.write (RKey.failed e) (some ⟨.vnum (k + 1), some texp⟩)).ttl
      (RKey.failed e) = (texp : Int) - (s.now : Int) := by
    have := Store.ttl_of_data_window
      (s.write (RKey.failed e) (some ⟨.vnum (k + 1), some texp⟩))
      (RKey.failed e) (.vnum (k + 1)) texp (by simp) (by simpa using ht)
    simpa using this
  have hmain : track_failed_attempt s e =
      ((if k + 1 ≥ FAILED_LIMIT
        then ((true : Bool), (texp : Int) - (s.now : Int))
        else ((false : Bool), (0 : Int))),
        s.write (RKey.failed e) (some ⟨.vnum (k + 1), some texp⟩)) := by
    by_cases hgt : k + 1 ≥ FAILED_LIMIT
    · simp [track_failed_attempt, hincr, hne, hgt, httl]
    · simp [track_failed_attempt, hincr, hne, hgt]
  rw [hmain]
  simp

/-! ## Facts about the per-call output specification -/

theorem counterSpecOutputs_length (limit : Nat) :
    ∀ (ds : List Nat) (k now texp : Nat),
      (counterSpecOutputs limit k now texp ds).length = ds.length := by
  intro ds
  induction ds with
  | nil => intro k now texp; rfl
  | cons d ds ih =>
    intro k now texp
    simp [counterSpecOutputs, ih]

/-- The limited flag of the `i`-th call depends only on its ordinal:
with `k` prior calls, call `i` (0-based) is limited exactly when
`k + i + 1` exceeds the limit. -/
theorem counterSpecOutputs_flag (limit : Nat) :
    ∀ (ds : List Nat) (k now texp i : Nat) (p : Bool × Int),
      (counterSpecOutputs limit k now texp ds)[i]? = some p →
      p.1 = decide (k + i + 1 > limit) := by
  intro ds
  induction ds with
  | nil =>
    intro k now texp i p hp
    simp [counterSpecOutputs] at hp
  | cons d ds ih =>
    intro k now texp i p hp
    cases i with
    | zero =>
      simp only [counterSpecOutputs, List.getElem?_cons_zero, Option.some_inj] at hp
      subst hp
      by_cases hgt : k + 1 > limit
      · simp [hgt]
      · simp [hgt]
    | succ i =>
      simp only [counterSpecOutputs, List.getElem?_cons_succ] at hp
      have := ih (k + 1) (now + d) texp i p hp
      rw [this]
      have harith : k + 1 + i + 1 = k + (i + 1) + 1 := by omega
      rw [harith]

/-- Every limited call in a window run carries a positive retry hint. -/
theorem counterSpecOutputs_pos (limit : Nat) :
    ∀ (ds : List Nat) (k now texp : Nat), now + ds.sum < texp →
      ∀ p ∈ counterSpecOutputs limit k now texp ds, p.1 = true → 0 < p.2 := by
  intro ds
  induction ds with
  | nil =>
    intro k now texp _ p hp
    simp [counterSpecOutputs] at hp
  | cons d ds ih =>
    intro k now texp hwin p hp htrue
    simp only [counterSpecOutputs, List.mem_cons] at hp
    rcases hp with hp | hp
    · by_cases hgt : k + 1 > limit
      · rw [if_pos hgt] at hp
        subst hp
        have hd : now + d < texp := by
          have := List.sum_cons (a := d) (l := ds)
          omega
        simp only
        omega
      · rw [if_neg hgt] at hp
        subst hp
        simp at htrue
    · have hwin' : (now + d) + ds.sum < texp := by
        have := List.sum_cons (a := d) (l := ds)
        omega
      exact ih (k + 1) (now + d) texp hwin' p hp htrue

/-! ## Iterated calls to the email limiter and failure tracker -/

/-- Running the email limiter through a list of gaps from a state whose
window holds count `k ≥ 1` with deadline `texp`, all calls landing before
the deadline: the outputs follow `counterSpecOutputs`, the clock advances
by the gaps, and the counter ends at `k + ds.length` with the deadline
untouched. -/
theorem runTimed_email_spec (e : String) (ds : List Nat) :
    ∀ (s : Store) (k texp : Nat), 1 ≤ k →
      s.data (RKey.rlEmail e) = some ⟨.vnum k, some texp⟩ →
      s.now + ds.sum < texp →
      (runTimed (fun st => is_email_rate_limited st e) ds s).1
        = counterSpecOutputs EMAIL_LIMIT k s.now texp ds ∧
      (runTimed (fun st => is_email_rate_limited st e) ds s).2.now
        = s.now + ds.sum ∧
      (runTimed (fun st => is_email_rate_limited st e) ds s).2.data (RKey.rlEmail e)
        = some ⟨.vnum (k + ds.length), some texp⟩ := by
  induction ds with
  | nil =>
    intro s k texp hk hd hwin
    simp [runTimed, counterSpecOutputs]
    exact hd
  | cons d ds ih =>
    intro s k texp hk hd hwin
    have hsum : (d :: ds).sum = d + ds.sum := List.sum_cons
    have hd0 : (s.tick d).data (RKey.rlEmail e) = some ⟨.vnum k, some texp⟩ := by
      simpa using hd
    have ht0 : (s.tick d).now < texp := by
      simp only [Store.tick_now]
      omega
    obtain ⟨h1, h2, h3⟩ := email_rl_step_live (s.tick d) e k texp hk hd0 ht0
    have hwin' : (is_email_rate_limited (s.tick d) e).2.now + ds.sum < texp := by
      rw [h2]
      simp only [Store.tick_now]
      omega
    obtain ⟨ih1, ih2, ih3⟩ :=
      ih ((is_email_rate_limited (s.tick d) e).2) (k + 1) texp (by omega) h3 hwin'
    refine ⟨?_, ?_, ?_⟩
    · simp only [runTimed, counterSpecOutputs]
      rw [ih1, h1, h2]
      simp only [Store.tick_now]
    · simp only [runTimed]
      rw [ih2, h2]
      simp only [Store.tick_now]
      omega
    · simp only [runTimed]
      rw [ih3]
      have harith : k + 1 + ds.length = k + (d :: ds).length := by
        simp
        omega
      rw [harith]

/-- Running the failure tracker through a list of gaps from a state whose
window holds count `k ≥ 1` with deadline `texp`, all calls landing before
the deadline.  The `≥ FAILED_LIMIT` trip condition is the strict
`> FAILED_LIMIT - 1`. -/
theorem runTimed_failed_spec (e : String) (ds : List Nat) :
    ∀ (s : Store) (k texp : Nat), 1 ≤ k →
      s.data (RKey.failed e) = some ⟨.vnum k, some texp⟩ →
      s.now + ds.sum < texp →
      (runTimed (fun st => track_failed_attempt st e) ds s).1
        = counterSpecOutputs (FAILED_LIMIT - 1) k s.now texp ds ∧
      (runTimed (fun st => track_failed_attempt st e) ds s).2.now
        = s.now + ds.sum ∧
      (runTimed (fun st => track_failed_attempt st e) ds s).2.data (RKey.failed e)
        = some ⟨.vnum (k + ds.length), some texp⟩ := by
  induction ds with
  | nil =>
    intro s k texp hk hd hwin
    simp [runTimed, counterSpecOutputs]
    exact hd
  | cons d ds ih =>
    intro s k texp hk hd hwin
    have hsum : (d :: ds).sum = d + ds.sum := List.sum_cons
    have hd0 : (s.tick d).data (RKey.failed e) = some ⟨.vnum k, some texp⟩ := by
      simpa using hd
    have ht0 : (s.tick d).now < texp := by
      simp only [Store.tick_now]
      omega
    obtain ⟨h1, h2, h3⟩ := track_failed_step_live (s.tick d) e k texp hk hd0 ht0
    have hwin' : (track_failed_attempt (s.tick d) e).2.now + ds.sum < texp := by
      rw [h2]
      simp only [Store.tick_now]
      omega
    obtain ⟨ih1, ih2, ih3⟩ :=
      ih ((track_failed_attempt (s.tick d) e).2) (k + 1) texp (by omega) h3 hwin'
    refine ⟨?_, ?_, ?_⟩
    · simp only [runTimed, counterSpecOutputs]
      rw [ih1, h1, h2]
      simp only [Store.tick_now]
      by_cases hge : k + 1 ≥ FAILED_LIMIT
      · have hgt : k + 1 > FAILED_LIMIT - 1 := by
          simp only [FAILED_LIMIT] at hge ⊢
          omega
        rw [if_pos hge, if_pos hgt]
      · have hgt : ¬ (k + 1 > FAILED_LIMIT - 1) := by
          simp only [FAILED_LIMIT] at hge ⊢
          omega
        rw [if_neg hge, if_neg hgt]
    · simp only [runTimed]
      rw [ih2, h2]
      simp only [Store.tick_now]
      omega
    · simp only [runTimed]
      rw [ih3]
      have harith : k + 1 + ds.length = k + (d :: ds).length := by
        simp
        omega
      rw [harith]

/-- A store with nothing in it and the clock at 0, used to instantiate
theorems with hypotheses at concrete inputs. -/
def emptyStore : Store := ⟨0, fun _ => none⟩

/-- C1: for every email, within a single rate-limit window (first call
after a gap `d0` from a fresh key, later calls after gaps `ds` summing
below the window), the first `EMAIL_LIMIT = 3` calls return
`limited = false`, the 4th and every later call returns `limited = true`
with `retry_after` equal to the counter's remaining TTL
(`counterSpecOutputs` carries `texp - now` there), which is positive;
the rejecting request is itself counted: the counter ends at the total
number of calls. -/
theorem claim_C1_email_rate_limit_window (s : Store) (e : String)
    (d0 : Nat) (ds : List Nat)
    (hfresh : s.live (RKey.rlEmail e) = none)
    (hwin : ds.sum < EMAIL_WINDOW_SECONDS) :
    (runTimed (fun st => is_email_rate_limited st e) (d0 :: ds) s).1
      = counterSpecOutputs EMAIL_LIMIT 0 s.now
          (s.now + d0 + EMAIL_WINDOW_SECONDS) (d0 :: ds) ∧
    (∀ (i : Nat) (p : Bool × Int),
      (runTimed (fun st => is_email_rate_limited st e) (d0 :: ds) s).1[i]? = some p →
      p.1 = decide (i + 1 > EMAIL_LIMIT) ∧ (p.1 = true → 0 < p.2)) ∧
    (runTimed (fun st => is_email_rate_limited st e) (d0 :: ds) s).2.data
        (RKey.rlEmail e)
      = some ⟨.vnum (ds.length + 1),
          some (s.now + d0 + EMAIL_WINDOW_SECONDS)⟩ := by
  have hfresh0 : (s.tick d0).live (RKey.rlEmail e) = none :=
    Store.live_none_tick s _ d0 hfresh
  obtain ⟨h1, h2, h3⟩ := email_rl_step_fresh (s.tick d0) e hfresh0
  have h3' : (is_email_rate_limited (s.tick d0) e).2.data (RKey.rlEmail e)
      = some ⟨.vnum 1, some (s.now + d0 + EMAIL_WINDOW_SECONDS)⟩ := by
    rw [h3]
    simp only [Store.tick_now]
  have hwin' : (is_email_rate_limited (s.tick d0) e).2.now + ds.sum
      < s.now + d0 + EMAIL_WINDOW_SECONDS := by
    rw [h2]
    simp only [Store.tick_now]
    omega
  obtain ⟨ih1, ih2, ih3⟩ := runTimed_email_spec e ds
    ((is_email_rate_limited (s.tick d0) e).2) 1
    (s.now + d0 + EMAIL_WINDOW_SECONDS) (by omega) h3' hwin'
  have hout : (runTimed (fun st => is_email_rate_limited st e) (d0 :: ds) s).1
      = counterSpecOutputs EMAIL_LIMIT 0 s.now
          (s.now + d0 + EMAIL_WINDOW_SECONDS) (d0 :: ds) := by
    simp only [runTimed, counterSpecOutputs]
    rw [ih1, h1, h2]
    simp only [Store.tick_now]
    have hlt : ¬ ((0 : Nat) + 1 > EMAIL_LIMIT) := by
      simp [EMAIL_LIMIT]
    rw [if_neg hlt]
  refine ⟨hout, ?_, ?_⟩
  · intro i p hp
    rw [hout] at hp
    constructor
    · have := counterSpecOutputs_flag EMAIL_LIMIT (d0 :: ds) 0 s.now
        (s.now + d0 + EMAIL_WINDOW_SECONDS) i p hp
      rw [this]
      have harith : 0 + i + 1 = i + 1 := by omega
      rw [harith]
    · intro htrue
      have hmem : p ∈ counterSpecOutputs EMAIL_LIMIT 0 s.now
          (s.now + d0 + EMAIL_WINDOW_SECONDS) (d0 :: ds) := by
        exact List.getElem?_mem hp
      refine counterSpecOutputs_pos EMAIL_LIMIT (d0 :: ds) 0 s.now
        (s.now + d0 + EMAIL_WINDOW_SECONDS) ?_ p hmem htrue
      simp only [List.sum_cons]
      omega
  · simp only [runTimed]
    rw [ih3]
    have harith : 1 + ds.length = ds.length + 1 := by omega
    rw [harith]

/-- Concrete instance of C1: four immediate calls for one email on a
fresh store; the first three pass, the fourth is limited with the full
window as retry hint. -/
theorem claim_C1_witness :
    (runTimed (fun st => is_email_rate_limited st "a@x.com")
        [0, 0, 0, 0] emptyStore).1
      = [(false, 0), (false, 0), (false, 0), (true, 600)] := by
  have h := (claim_C1_email_rate_limit_window emptyStore "a@x.com" 0 [0, 0, 0]
    rfl (by decide)).1
  rw [h]
  decide

/-- C2: for every identity, a run of failed-attempt recordings within a
single window returns `now_locked = false` while the post-increment count
is 1 through `FAILED_LIMIT - 1 = 4`, and `now_locked = true` exactly from
the 5th consecutive failure onward, with a positive unlock hint; every
failure is counted. -/
theorem claim_C2_failure_lockout_threshold (s : Store) (e : String)
    (d0 : Nat) (ds : List Nat)
    (hfresh : s.live (RKey.failed e) = none)
    (hwin : ds.sum < FAILED_WINDOW_SECONDS) :
    (runTimed (fun st => track_failed_attempt st e) (d0 :: ds) s).1
      = counterSpecOutputs (FAILED_LIMIT - 1) 0 s.now
          (s.now + d0 + FAILED_WINDOW_SECONDS) (d0 :: ds) ∧
    (∀ (i : Nat) (p : Bool × Int),
      (runTimed (fun st => track_failed_attempt st e) (d0 :: ds) s).1[i]? = some p →
      p.1 = decide (i + 1 ≥ FAILED_LIMIT) ∧ (p.1 = true → 0 < p.2)) ∧
    (runTimed (fun st => track_failed_attempt st e) (d0 :: ds) s).2.data
        (RKey.failed e)
      = some ⟨.vnum (ds.length + 1),
          some (s.now + d0 + FAILED_WINDOW_SECONDS)⟩ := by
  have hfresh0 : (s.tick d0).live (RKey.failed e) = none :=
    Store.live_none_tick s _ d0 hfresh
  obtain ⟨h1, h2, h3⟩ := track_failed_step_fresh (s.tick d0) e hfresh0
  have h3' : (track_failed_attempt (s.tick d0) e).2.data (RKey.failed e)
      = some ⟨.vnum 1, some (s.now + d0 + FAILED_WINDOW_SECONDS)⟩ := by
    rw [h3]
    simp only [Store.tick_now]
  have hwin' : (track_failed_attempt (s.tick d0) e).2.now + ds.sum
      < s.now + d0 + FAILED_WINDOW_SECONDS := by
    rw [h2]
    simp only [Store.tick_now]
    omega
  obtain ⟨ih1, ih2, ih3⟩ := runTimed_failed_spec e ds
    ((track_failed_attempt (s.tick d0) e).2) 1
    (s.now + d0 + FAILED_WINDOW_SECONDS) (by omega) h3' hwin'
  have hout : (runTimed (fun st => track_failed_attempt st e) (d0 :: ds) s).1
      = counterSpecOutputs (FAILED_LIMIT - 1) 0 s.now
          (s.now + d0 + FAILED_WINDOW_SECONDS) (d0 :: ds) := by
    simp only [runTimed, counterSpecOutputs]
    rw [ih1, h1, h2]
    simp only [Store.tick_now]
    have hlt : ¬ ((0 : Nat) + 1 > FAILED_LIMIT - 1) := by
      simp [FAILED_LIMIT]
    rw [if_neg hlt]
  refine ⟨hout, ?_, ?_⟩
  · intro i p hp
    rw [hout] at hp
    constructor
    · have hflag := counterSpecOutputs_flag (FAILED_LIMIT - 1) (d0 :: ds) 0 s.now
        (s.now + d0 + FAILED_WINDOW_SECONDS) i p hp
      rw [hflag]
      refine decide_eq_decide.mpr ?_
      simp only [FAILED_LIMIT]
      omega
    · intro htrue
      have hmem : p ∈ counterSpecOutputs (FAILED_LIMIT - 1) 0 s.now
          (s.now + d0 + FAILED_WINDOW_SECONDS) (d0 :: ds) :=
        List.getElem?_mem hp
      refine counterSpecOutputs_pos (FAILED_LIMIT - 1) (d0 :: ds) 0 s.now
        (s.now + d0 + FAILED_WINDOW_SECONDS) ?_ p hmem htrue
      simp only [List.sum_cons]
      omega
  · simp only [runTimed]
    rw [ih3]
    have harith : 1 + ds.length = ds.length + 1 := by omega
    rw [harith]

/-- Concrete instance of C2: five immediate failed attempts on a fresh
store; the first four report unlocked, the fifth locks with the full
lockout window as hint. -/
theorem claim_C2_witness :
    (runTimed (fun st => track_failed_attempt st "a@x.com")
        [0, 0, 0, 0, 0] emptyStore).1
      = [(false, 0), (false, 0), (false, 0), (false, 0), (true, 900)] := by
  have h := (claim_C2_failure_lockout_threshold emptyStore "a@x.com" 0
    [0, 0, 0, 0] rfl (by decide)).1
  rw [h]
  decide

/-! ## Congruence helpers: reads depend only on the read key and clock -/

theorem Store.getStr_congr (s s2 : Store) (k : RKey)
    (hd : s2.data k = s.data k) (hn : s2.now = s.now) :
    s2.getStr k = s.getStr k := by
  simp [Store.getStr, Store.live, hd, hn]

theorem Store.getNat_congr (s s2 : Store) (k : RKey)
    (hd : s2.data k = s.data k) (hn : s2.now = s.now) :
    s2.getNat k = s.getNat k := by
  simp [Store.getNat, Store.live, hd, hn]

theorem Store.ttl_congr (s s2 : Store) (k : RKey)
    (hd : s2.data k = s.data k) (hn : s2.now = s.now) :
    s2.ttl k = s.ttl k := by
  simp [Store.ttl, Store.live, hd, hn]

/-- `is_email_locked` reads only the failure counter, so writing the OTP
record does not change its verdict. -/
theorem is_email_locked_write_otp (s : Store) (e x : String)
    (v : Option Entry) :
    is_email_locked (s.write (RKey.otp x) v) e = is_email_locked s e := by
  have hne : RKey.failed e ≠ RKey.otp x := by simp
  have hd := Store.write_data_ne s (RKey.otp x) v (RKey.failed e) hne
  simp only [is_email_locked]
  rw [Store.getNat_congr s _ _ hd rfl, Store.ttl_congr s _ _ hd rfl]

/-! ## Claim C3: a locked identity is rejected before the OTP is consulted -/

/-- Concrete store for instantiation: identity locked (counter at the
threshold, window open) while the correct OTP is stored. -/
def lockedStore : Store :=
  ⟨0, fun k =>
    if k = RKey.failed "a@x.com" then some ⟨.vnum 5, some 900⟩
    else if k = RKey.otp "a@x.com" then some ⟨.vstr "123456", some 300⟩
    else none⟩

/-- C3: when the failure counter already reports locked, a verify call
returns the locked (423) response carrying the reported unlock ETA and
leaves the store exactly as it was — the stored OTP is neither read nor
deleted and the failure counter is not incremented — for every presented
code, including the correct one; moreover the outcome is independent of
whatever is stored under the identity's OTP record. -/
theorem claim_C3_locked_rejects_before_verify (s : Store) (e : String)
    (eta : Int) (hlock : is_email_locked s e = (true, eta)) :
    (∀ otp, otpVerifyFlow s e otp = (VerifyResult.locked eta, s)) ∧
    (∀ otp v, otpVerifyFlow (s.write (RKey.otp e) v) e otp
      = (VerifyResult.locked eta, s.write (RKey.otp e) v)) := by
  constructor
  · intro otp
    simp [otpVerifyFlow, hlock]
  · intro otp v
    have h2 : is_email_locked (s.write (RKey.otp e) v) e = (true, eta) := by
      rw [is_email_locked_write_otp, hlock]
    simp [otpVerifyFlow, h2]

/-- Concrete instance of C3: the locked identity presenting its correct
stored code is still rejected with 423, store untouched. -/
theorem claim_C3_witness :
    otpVerifyFlow lockedStore "a@x.com" "123456"
      = (VerifyResult.locked 900, lockedStore) :=
  (claim_C3_locked_rejects_before_verify lockedStore "a@x.com" 900
    (by decide)).1 "123456"

/-! ## Claim C4: one-time use of a matching OTP -/

/-- Concrete store for instantiation: a stored OTP, nothing else. -/
def otpStore : Store :=
  ⟨0, fun k =>
    if k = RKey.otp "a@x.com" then some ⟨.vstr "123456", some 300⟩
    else none⟩

/-- C4: presenting exactly the stored (non-empty) code verifies, deletes
the record, and an immediately repeated verification with the same code
fails.  (Codes written by the issuer are six digits, hence non-empty;
the Python truthiness guard `if not stored_otp` makes an empty stored
string unverifiable.) -/
theorem claim_C4_one_time_use (s : Store) (e c : String)
    (hc : s.getStr (RKey.otp e) = some c) (hemp : c ≠ "") :
    (verify_otp s e c).1 = true ∧
    (verify_otp s e c).2.data (RKey.otp e) = none ∧
    verify_otp (verify_otp s e c).2 e c = (false, (verify_otp s e c).2) := by
  have hmain : verify_otp s e c = (true, s.del (RKey.otp e)) := by
    simp [verify_otp, hc, hemp]
  have hnone : (s.del (RKey.otp e)).getStr (RKey.otp e) = none :=
    Store.getStr_none_of_data_none _ _ (by simp)
  refine ⟨by rw [hmain], by rw [hmain]; simp, ?_⟩
  rw [hmain]
  simp [verify_otp, hnone]

/-- Concrete instance of C4. -/
theorem claim_C4_witness :
    (verify_otp otpStore "a@x.com" "123456").1 = true ∧
    (verify_otp otpStore "a@x.com" "123456").2.data (RKey.otp "a@x.com") = none ∧
    verify_otp (verify_otp otpStore "a@x.com" "123456").2 "a@x.com" "123456"
      = (false, (verify_otp otpStore "a@x.com" "123456").2) :=
  claim_C4_one_time_use otpStore "a@x.com" "123456" (by decide) (by decide)

/-! ## Claim C5: a wrong code never disturbs the stored OTP -/

/-- A single verification with a code different from the stored one
fails and returns the store unchanged. -/
theorem verify_otp_wrong (s : Store) (e c p : String)
    (hc : s.getStr (RKey.otp e) = some c) (hne : p ≠ c) :
    verify_otp s e p = (false, s) := by
  by_cases hemp : c = ""
  · simp [verify_otp, hc, hemp]
  · have hcp : c ≠ p := fun h => hne h.symm
    simp [verify_otp, hc, hemp, hcp]

/-- Iterating wrong codes fails every time and is the identity on the
store. -/
theorem runVerifyOtp_wrong (e c : String) (ps : List String) :
    ∀ s : Store, s.getStr (RKey.otp e) = some c → (∀ p ∈ ps, p ≠ c) →
      runVerifyOtp e ps s = (ps.map (fun _ => false), s) := by
  induction ps with
  | nil =>
    intro s _ _
    rfl
  | cons p ps ih =>
    intro s hc hps
    have hstep : verify_otp s e p = (false, s) :=
      verify_otp_wrong s e c p hc (hps p (by simp))
    have hrest := ih s hc (fun q hq => hps q (by simp [hq]))
    simp [runVerifyOtp, hstep, hrest]

/-- C5: any number of verifications with wrong codes all fail and leave
the store exactly unchanged, and afterwards the correct (non-empty) code
still verifies. -/
theorem claim_C5_wrong_code_frame (s : Store) (e c : String)
    (ps : List String)
    (hc : s.getStr (RKey.otp e) = some c)
    (hps : ∀ p ∈ ps, p ≠ c) :
    (runVerifyOtp e ps s).1 = ps.map (fun _ => false) ∧
    (runVerifyOtp e ps s).2 = s ∧
    (c ≠ "" → (verify_otp (runVerifyOtp e ps s).2 e c).1 = true) := by
  have hrun := runVerifyOtp_wrong e c ps s hc hps
  refine ⟨by rw [hrun], by rw [hrun], ?_⟩
  intro hemp
  rw [hrun]
  simp [verify_otp, hc, hemp]

/-- Concrete instance of C5: three wrong attempts, then the correct code
still succeeds. -/
theorem claim_C5_witness :
    (runVerifyOtp "a@x.com" ["000000", "999999", "654321"] otpStore).1
      = [false, false, false] ∧
    (runVerifyOtp "a@x.com" ["000000", "999999", "654321"] otpStore).2
      = otpStore ∧
    ("123456" ≠ "" →
      (verify_otp (runVerifyOtp "a@x.com" ["000000", "999999", "654321"]
        otpStore).2 "a@x.com" "123456").1 = true) :=
  claim_C5_wrong_code_frame otpStore "a@x.com" "123456"
    ["000000", "999999", "654321"] (by decide) (by decide)

/-! ## Claim C6: successful verification resets the failure counter -/

/-- The failure counter's observable state: either absent (count 0) or a
positive count inside an open window. -/
def FailedOk (s : Store) (e : String) (k : Nat) : Prop :=
  (k = 0 ∧ s.live (RKey.failed e) = none) ∨
  (1 ≤ k ∧ ∃ texp, s.now < texp ∧
    s.data (RKey.failed e) = some ⟨.vnum k, some texp⟩)

/-- Below the threshold the lockout pre-check passes. -/
theorem is_email_locked_of_failedOk (s : Store) (e : String) (k : Nat)
    (h : FailedOk s e k) (hk : k < FAILED_LIMIT) :
    is_email_locked s e = (false, 0) := by
  rcases h with ⟨_, hnone⟩ | ⟨_, texp, ht, hd⟩
  · have : s.getNat (RKey.failed e) = none := by
      simp [Store.getNat, hnone]
    simp [is_email_locked, this]
  · have hget : s.getNat (RKey.failed e) = some k :=
      Store.getNat_of_data_window s _ k texp hd ht
    have hlt : ¬ (k ≥ FAILED_LIMIT) := by omega
    simp [is_email_locked, hget, hlt]

/-- Whether a presented code fails verification, as a function of the
observed stored value: always when nothing (or the falsy empty string)
is stored, and whenever the presented code differs. -/
def verifyFails (v : Option String) (p : String) : Prop :=
  match v with
  | none => True
  | some c => c = "" ∨ p ≠ c

theorem verify_otp_fails_of (s : Store) (e p : String) (v : Option String)
    (hv : s.getStr (RKey.otp e) = v) (hf : verifyFails v p) :
    verify_otp s e p = (false, s) := by
  cases v with
  | none => simp [verify_otp, hv]
  | some c =>
    rcases hf with hemp | hne
    · subst hemp
      simp [verify_otp, hv]
    · exact verify_otp_wrong s e c p hv hne

/-- One failing verify call below the lockout threshold: 400 response,
counter bumped, clock and OTP observation untouched. -/
theorem otpVerifyFlow_fail_step (s : Store) (e p : String)
    (v : Option String) (k : Nat)
    (hv : s.getStr (RKey.otp e) = v) (hf : verifyFails v p)
    (hok : FailedOk s e k) (hlt : k + 1 < FAILED_LIMIT) :
    otpVerifyFlow s e p = (VerifyResult.invalidOtp, (track_failed_attempt s e).2) ∧
    FailedOk (track_failed_attempt s e).2 e (k + 1) ∧
    (track_failed_attempt s e).2.now = s.now ∧
    (track_failed_attempt s e).2.getStr (RKey.otp e) = v := by
  have hnl : is_email_locked s e = (false, 0) :=
    is_email_locked_of_failedOk s e k hok (by omega)
  have hvf : verify_otp s e p = (false, s) := verify_otp_fails_of s e p v hv hf
  have hfr : (track_failed_attempt s e).2.data (RKey.otp e) = s.data (RKey.otp e) :=
    track_failed_frame s e (RKey.otp e) (by simp)
  have hnow : (track_failed_attempt s e).2.now = s.now := track_failed_now s e
  have hnotlock : (track_failed_attempt s e).1.1 = false ∧
      FailedOk (track_failed_attempt s e).2 e (k + 1) := by
    rcases hok with ⟨hk0, hnone⟩ | ⟨hk1, texp, ht, hd⟩
    · obtain ⟨f1, f2, f3⟩ := track_failed_step_fresh s e hnone
      constructor
      · rw [f1]
      · refine Or.inr ⟨by omega, s.now + FAILED_WINDOW_SECONDS, ?_, ?_⟩
        · rw [f2]
          simp [FAILED_WINDOW_SECONDS]
        · rw [f3, hk0]
    · obtain ⟨f1, f2, f3⟩ := track_failed_step_live s e k texp hk1 hd ht
      constructor
      · rw [f1, if_neg (by omega)]
      · refine Or.inr ⟨by omega, texp, ?_, f3⟩
        rw [f2]
        exact ht
  refine ⟨?_, hnotlock.2, hnow, ?_⟩
  · simp [otpVerifyFlow, hnl, hvf, hnotlock.1]
  · rw [Store.getStr_congr s _ _ hfr hnow]
    exact hv

/-- A run of failing verify calls that stays below the threshold: all
respond 400, the counter counts them, clock and OTP observation are
untouched. -/
theorem runVerifyFlow_fails (e : String) (v : Option String)
    (ps : List String) :
    ∀ (s : Store) (k : Nat), s.getStr (RKey.otp e) = v →
      (∀ p ∈ ps, verifyFails v p) →
      FailedOk s e k → k + ps.length < FAILED_LIMIT →
      (runVerifyFlow e ps s).1 = ps.map (fun _ => VerifyResult.invalidOtp) ∧
      FailedOk (runVerifyFlow e ps s).2 e (k + ps.length) ∧
      (runVerifyFlow e ps s).2.now = s.now ∧
      (runVerifyFlow e ps s).2.getStr (RKey.otp e) = v := by
  induction ps with
  | nil =>
    intro s k hv _ hok _
    exact ⟨rfl, by simpa using hok, rfl, hv⟩
  | cons p ps ih =>
    intro s k hv hps hok hlt
    obtain ⟨s1eq, s1ok, s1now, s1v⟩ :=
      otpVerifyFlow_fail_step s e p v k hv (hps p (by simp)) hok (by simp at hlt; omega)
    obtain ⟨r1, r2, r3, r4⟩ :=
      ih ((track_failed_attempt s e).2) (k + 1) s1v
        (fun q hq => hps q (by simp [hq])) s1ok (by simp at hlt ⊢; omega)
    refine ⟨?_, ?_, ?_, ?_⟩
    · simp only [runVerifyFlow, s1eq, List.map_cons]
      rw [r1]
    · simp only [runVerifyFlow, s1eq]
      have harith : k + 1 + ps.length = k + (p :: ps).length := by
        simp
        omega
      rw [← harith]
      exact r2
    · simp only [runVerifyFlow, s1eq]
      rw [r3, s1now]
    · simp only [runVerifyFlow, s1eq]
      exact r4

/-- One successful verify call below the threshold: 201 response, OTP
consumed, failure counter cleared, clock untouched. -/
theorem otpVerifyFlow_success_step (s : Store) (e c : String) (k : Nat)
    (hc : s.getStr (RKey.otp e) = some c) (hemp : c ≠ "")
    (hok : FailedOk s e k) (hlt : k < FAILED_LIMIT) :
    otpVerifyFlow s e c
      = (VerifyResult.success e,
         clear_failed_attempts (s.del (RKey.otp e)) e) ∧
    FailedOk (clear_failed_attempts (s.del (RKey.otp e)) e) e 0 ∧
    (clear_failed_attempts (s.del (RKey.otp e)) e).now = s.now ∧
    (clear_failed_attempts (s.del (RKey.otp e)) e).getStr (RKey.otp e) = none := by
  have hnl : is_email_locked s e = (false, 0) :=
    is_email_locked_of_failedOk s e k hok hlt
  have hvf : verify_otp s e c = (true, s.del (RKey.otp e)) := by
    simp [verify_otp, hc, hemp]
  refine ⟨?_, ?_, rfl, ?_⟩
  · simp [otpVerifyFlow, hnl, hvf, clear_failed_attempts]
  · refine Or.inl ⟨rfl, ?_⟩
    refine Store.live_none_of_data_none _ _ ?_
    simp [clear_failed_attempts]
  · refine Store.getStr_none_of_data_none _ _ ?_
    have h1 : (clear_failed_attempts (s.del (RKey.otp e)) e).data (RKey.otp e)
        = (s.del (RKey.otp e)).data (RKey.otp e) := by
      simp only [clear_failed_attempts]
      exact Store.del_data_ne _ _ _ (by simp)
    rw [h1]
    simp

/-- Splitting a verify-call run at an append. -/
theorem runVerifyFlow_append (e : String) (xs ys : List String) :
    ∀ s : Store,
      runVerifyFlow e (xs ++ ys) s
        = ((runVerifyFlow e xs s).1
            ++ (runVerifyFlow e ys (runVerifyFlow e xs s).2).1,
           (runVerifyFlow e ys (runVerifyFlow e xs s).2).2) := by
  induction xs with
  | nil =>
    intro s
    simp [runVerifyFlow]
  | cons x xs ih =>
    intro s
    simp only [List.cons_append, runVerifyFlow, List.append_eq]
    rw [ih]

/-- C6: (i) whenever a verify call answers success, the returned store
holds no failure counter for that identity; (ii) up to 4 failures, one
success, then up to 4 fresh failures never reach the locked state: every
failing call answers 400 (never 423) and the final state is not locked. -/
theorem claim_C6_success_resets_failures :
    (∀ (s : Store) (e otp : String),
      (otpVerifyFlow s e otp).1 = VerifyResult.success e →
      (otpVerifyFlow s e otp).2.data (RKey.failed e) = none) ∧
    (∀ (s : Store) (e c : String) (ps qs : List String),
      s.getStr (RKey.otp e) = some c → c ≠ "" →
      s.live (RKey.failed e) = none →
      (∀ p ∈ ps, p ≠ c) →
      ps.length < FAILED_LIMIT → qs.length < FAILED_LIMIT →
      (runVerifyFlow e (ps ++ c :: qs) s).1
        = ps.map (fun _ => VerifyResult.invalidOtp)
          ++ VerifyResult.success e :: qs.map (fun _ => VerifyResult.invalidOtp) ∧
      is_email_locked (runVerifyFlow e (ps ++ c :: qs) s).2 e = (false, 0)) := by
  constructor
  · intro s e otp h
    by_cases hlk : (is_email_locked s e).1
    · simp [otpVerifyFlow, hlk] at h
    · by_cases hvr : (verify_otp s e otp).1 = false
      · by_cases htr : (track_failed_attempt (verify_otp s e otp).2 e).1.1
        · simp [otpVerifyFlow, hlk, hvr, htr] at h
        · simp [otpVerifyFlow, hlk, hvr, htr] at h
      · simp [otpVerifyFlow, hlk, hvr, clear_failed_attempts]
  · intro s e c ps qs hc hemp hfail hps hlps hlqs
    have happ := runVerifyFlow_append e ps (c :: qs) s
    obtain ⟨a1, a2, a3, a4⟩ := runVerifyFlow_fails e (some c) ps s 0 hc
      (fun p hp => Or.inr (hps p hp)) (Or.inl ⟨rfl, hfail⟩) (by omega)
    obtain ⟨b1, b2, b3, b4⟩ := otpVerifyFlow_success_step
      ((runVerifyFlow e ps s).2) e c (0 + ps.length) a4 hemp a2 (by omega)
    obtain ⟨c1, c2, c3, c4⟩ := runVerifyFlow_fails e none qs
      (clear_failed_attempts (((runVerifyFlow e ps s).2).del (RKey.otp e)) e) 0 b4
      (fun q hq => True.intro) b2 (by omega)
    have hcons : runVerifyFlow e (c :: qs) ((runVerifyFlow e ps s).2)
        = (VerifyResult.success e :: (runVerifyFlow e qs
            (clear_failed_attempts (((runVerifyFlow e ps s).2).del (RKey.otp e)) e)).1,
           (runVerifyFlow e qs
            (clear_failed_attempts (((runVerifyFlow e ps s).2).del (RKey.otp e)) e)).2) := by
      simp only [runVerifyFlow, b1]
    constructor
    · rw [happ]
      simp only [hcons]
      rw [a1, c1]
    · rw [happ]
      simp only [hcons]
      exact is_email_locked_of_failedOk _ e (0 + qs.length) c2 (by omega)

/-- Concrete instance of C6: four wrong attempts, the correct code, four
more wrong attempts — all failures answer 400 and the final state is not
locked. -/
theorem claim_C6_witness :
    (runVerifyFlow "a@x.com"
        (["000000", "000000", "000000", "000000"]
          ++ "123456" :: ["111111", "111111", "111111", "111111"]) otpStore).1
      = [VerifyResult.invalidOtp, VerifyResult.invalidOtp,
         VerifyResult.invalidOtp, VerifyResult.invalidOtp,
         VerifyResult.success "a@x.com",
         VerifyResult.invalidOtp, VerifyResult.invalidOtp,
         VerifyResult.invalidOtp, VerifyResult.invalidOtp] ∧
    is_email_locked (runVerifyFlow "a@x.com"
        (["000000", "000000", "000000", "000000"]
          ++ "123456" :: ["111111", "111111", "111111", "111111"]) otpStore).2
        "a@x.com"
      = (false, 0) :=
  claim_C6_success_resets_failures.2 otpStore "a@x.com" "123456"
    ["000000", "000000", "000000", "000000"]
    ["111111", "111111", "111111", "111111"]
    (by decide) (by decide) (by decide) (by decide) (by decide) (by decide)

/-! ## Claim C7: fixed-window counter invariants -/

/-- Concrete store for instantiation: an email counter at 1 in an open
window. -/
def rlOneStore : Store :=
  ⟨0, fun k =>
    if k = RKey.rlEmail "a@x.com" then some ⟨.vnum 1, some 600⟩
    else none⟩

/-- C7: for each of the three counters (email rate, IP rate, failure),
an increment on a fresh window makes the count exactly 1 and installs
the window deadline `now + window`, and an increment inside an open
window takes the count from `k` to `k + 1` (non-decreasing) while
leaving the deadline exactly as it was — fixed window, never extended. -/
theorem claim_C7_fixed_window_invariants :
    (∀ (s : Store) (e : String), s.live (RKey.rlEmail e) = none →
      (is_email_rate_limited s e).2.data (RKey.rlEmail e)
        = some ⟨.vnum 1, some (s.now + EMAIL_WINDOW_SECONDS)⟩) ∧
    (∀ (s : Store) (e : String) (k texp : Nat), 1 ≤ k →
      s.data (RKey.rlEmail e) = some ⟨.vnum k, some texp⟩ → s.now < texp →
      (is_email_rate_limited s e).2.data (RKey.rlEmail e)
        = some ⟨.vnum (k + 1), some texp⟩) ∧
    (∀ (s : Store) (ip : String), s.live (RKey.rlIp ip) = none →
      (is_ip_rate_limited s ip).2.data (RKey.rlIp ip)
        = some ⟨.vnum 1, some (s.now + IP_WINDOW_SECONDS)⟩) ∧
    (∀ (s : Store) (ip : String) (k texp : Nat), 1 ≤ k →
      s.data (RKey.rlIp ip) = some ⟨.vnum k, some texp⟩ → s.now < texp →
      (is_ip_rate_limited s ip).2.data (RKey.rlIp ip)
        = some ⟨.vnum (k + 1), some texp⟩) ∧
    (∀ (s : Store) (e : String), s.live (RKey.failed e) = none →
      (track_failed_attempt s e).2.data (RKey.failed e)
        = some ⟨.vnum 1, some (s.now + FAILED_WINDOW_SECONDS)⟩) ∧
    (∀ (s : Store) (e : String) (k texp : Nat), 1 ≤ k →
      s.data (RKey.failed e) = some ⟨.vnum k, some texp⟩ → s.now < texp →
      (track_failed_attempt s e).2.data (RKey.failed e)
        = some ⟨.vnum (k + 1), some texp⟩) :=
  ⟨fun s e h => (email_rl_step_fresh s e h).2.2,
   fun s e k texp hk hd ht => (email_rl_step_live s e k texp hk hd ht).2.2,
   fun s ip h => (ip_rl_step_fresh s ip h).2.2,
   fun s ip k texp hk hd ht => (ip_rl_step_live s ip k texp hk hd ht).2.2,
   fun s e h => (track_failed_step_fresh s e h).2.2,
   fun s e k texp hk hd ht => (track_failed_step_live s e k texp hk hd ht).2.2⟩

/-- Concrete instance of C7: a second email increment keeps the deadline
at 600; first IP and failure increments install their windows. -/
theorem claim_C7_witness :
    (is_email_rate_limited rlOneStore "a@x.com").2.data (RKey.rlEmail "a@x.com")
      = some ⟨.vnum 2, some 600⟩ ∧
    (is_ip_rate_limited emptyStore "1.2.3.4").2.data (RKey.rlIp "1.2.3.4")
      = some ⟨.vnum 1, some (emptyStore.now + IP_WINDOW_SECONDS)⟩ ∧
    (track_failed_attempt emptyStore "a@x.com").2.data (RKey.failed "a@x.com")
      = some ⟨.vnum 1, some (emptyStore.now + FAILED_WINDOW_SECONDS)⟩ :=
  ⟨claim_C7_fixed_window_invariants.2.1 rlOneStore "a@x.com" 1 600
      (by decide) (by decide) (by decide),
   claim_C7_fixed_window_invariants.2.2.1 emptyStore "1.2.3.4" (by decide),
   claim_C7_fixed_window_invariants.2.2.2.2.1 emptyStore "a@x.com" (by decide)⟩

/-! ## Claim C8: a 429 leaves every OTP record untouched -/

/-- Concrete store for instantiation: the email counter already at its
limit inside an open window. -/
def emailCapStore : Store :=
  ⟨0, fun k =>
    if k = RKey.rlEmail "a@x.com" then some ⟨.vnum 3, some 600⟩
    else none⟩

/-- C8: when an OTP-issue request is rejected by the email or the IP
rate limit, every `otp:{...}` record is exactly as it was before the
request (none created, none overwritten), and the outcome does not
depend on the drawn code — no OTP is generated. -/
theorem claim_C8_rate_limited_preserves_otp (s : Store) (e ip code : String)
    (h : (∃ r, (otpRequestFlow s e ip code).1 = ReqResult.emailLimited r) ∨
         (∃ r, (otpRequestFlow s e ip code).1 = ReqResult.ipLimited r)) :
    (∀ x, (otpRequestFlow s e ip code).2.data (RKey.otp x)
      = s.data (RKey.otp x)) ∧
    (∀ code2, otpRequestFlow s e ip code2 = otpRequestFlow s e ip code) := by
  by_cases he : (is_email_rate_limited s e).1.1
  · have hflow : ∀ cd : String, otpRequestFlow s e ip cd
        = (ReqResult.emailLimited (is_email_rate_limited s e).1.2,
           (is_email_rate_limited s e).2) := by
      intro cd
      simp [otpRequestFlow, he]
    refine ⟨?_, ?_⟩
    · intro x
      rw [hflow code]
      exact email_rl_frame s e (RKey.otp x) (by simp)
    · intro code2
      rw [hflow code, hflow code2]
  · by_cases hip : (is_ip_rate_limited (is_email_rate_limited s e).2 ip).1.1
    · have hflow : ∀ cd : String, otpRequestFlow s e ip cd
          = (ReqResult.ipLimited
              (is_ip_rate_limited (is_email_rate_limited s e).2 ip).1.2,
             (is_ip_rate_limited (is_email_rate_limited s e).2 ip).2) := by
        intro cd
        simp [otpRequestFlow, he, hip]
      refine ⟨?_, ?_⟩
      · intro x
        rw [hflow code]
        rw [ip_rl_frame _ ip (RKey.otp x) (by simp)]
        exact email_rl_frame s e (RKey.otp x) (by simp)
      · intro code2
        rw [hflow code, hflow code2]
    · exfalso
      have hacc : (otpRequestFlow s e ip code).1
          = ReqResult.accepted e OTP_EXPIRY_SECONDS := by
        simp [otpRequestFlow, he, hip]
      rcases h with ⟨r, hr⟩ | ⟨r, hr⟩ <;> rw [hacc] at hr <;> simp at hr

/-- Concrete instance of C8: a 4th request for the capped email is
limited and the identity's OTP record is untouched. -/
theorem claim_C8_witness :
    (otpRequestFlow emailCapStore "a@x.com" "9.9.9.9" "123456").2.data
        (RKey.otp "a@x.com")
      = emailCapStore.data (RKey.otp "a@x.com") :=
  (claim_C8_rate_limited_preserves_otp emailCapStore "a@x.com" "9.9.9.9" "123456"
    (Or.inl ⟨600, by decide⟩)).1 "a@x.com"

/-! ## Claim C9: 404 with success:true in the password-reset branch -/

/-- C9: the password-reset token request endpoint has a branch — email
supplied but matching no user record — that answers HTTP 404 while the
body carries `success: true`. -/
theorem claim_C9_reset_404_with_success_true :
    ∃ resp : ApiResponse,
      resetPasswordRequestToken (some "ghost@x.com") (fun _ => false) = resp ∧
      resp.status_code = 404 ∧ resp.success = true :=
  ⟨⟨true, "Email address not found!", 404⟩, rfl, rfl, rfl⟩

/-! ## Claim C10: the public interface is case-insensitive in the email -/

/-- C10: both endpoints lowercase the email before any store access, so
two requests whose raw emails agree after lowercasing behave
identically; and an OTP issued through one case-variant on a fresh store
is verifiable through another case-variant — rate, failure and OTP state
all live under the single lowercased key. -/
theorem claim_C10_case_insensitive_identity (raw1 raw2 : String)
    (h : validate_email raw1 = validate_email raw2) :
    (∀ (s : Store) (ip code : String),
      otpRequestEndpoint s raw1 ip code = otpRequestEndpoint s raw2 ip code) ∧
    (∀ (s : Store) (p : String),
      otpVerifyEndpoint s raw1 p = otpVerifyEndpoint s raw2 p) ∧
    (∀ (s : Store) (ip code : String), (∀ k2, s.data k2 = none) → code ≠ "" →
      (otpRequestEndpoint s raw1 ip code).1
        = ReqResult.accepted (validate_email raw1) OTP_EXPIRY_SECONDS ∧
      (otpVerifyEndpoint (otpRequestEndpoint s raw1 ip code).2 raw2 code).1
        = VerifyResult.success (validate_email raw2)) := by
  refine ⟨?_, ?_, ?_⟩
  · intro s ip code
    unfold otpRequestEndpoint
    rw [h]
  · intro s p
    unfold otpVerifyEndpoint
    rw [h]
  · intro s ip code hempty hcode
    have hfre : s.live (RKey.rlEmail (validate_email raw1)) = none :=
      Store.live_none_of_data_none _ _ (hempty _)
    obtain ⟨e1, e2, e3⟩ := email_rl_step_fresh s (validate_email raw1) hfre
    have he1 : (is_email_rate_limited s (validate_email raw1)).1.1 = false := by
      rw [e1]
    have hfri : (is_email_rate_limited s (validate_email raw1)).2.live
        (RKey.rlIp ip) = none := by
      refine Store.live_none_of_data_none _ _ ?_
      rw [email_rl_frame s _ (RKey.rlIp ip) (by simp)]
      exact hempty _
    obtain ⟨i1, i2, i3⟩ :=
      ip_rl_step_fresh ((is_email_rate_limited s (validate_email raw1)).2) ip hfri
    have hi1 : (is_ip_rate_limited
        ((is_email_rate_limited s (validate_email raw1)).2) ip).1.1 = false := by
      rw [i1]
    have hreq : otpRequestEndpoint s raw1 ip code
        = (ReqResult.accepted (validate_email raw1) OTP_EXPIRY_SECONDS,
           store_otp (is_ip_rate_limited
             ((is_email_rate_limited s (validate_email raw1)).2) ip).2
             (validate_email raw1) code) := by
      unfold otpRequestEndpoint
      simp [otpRequestFlow, he1, hi1]
    refine ⟨by rw [hreq], ?_⟩
    unfold otpVerifyEndpoint
    rw [← h, hreq]
    have hnowi : (is_ip_rate_limited
        ((is_email_rate_limited s (validate_email raw1)).2) ip).2.now = s.now := by
      rw [i2, e2]
    have hd3 : (store_otp (is_ip_rate_limited
          ((is_email_rate_limited s (validate_email raw1)).2) ip).2
          (validate_email raw1) code).data (RKey.failed (validate_email raw1))
        = none := by
      unfold store_otp
      rw [Store.setex_data_ne _ _ _ _ _ (by simp)]
      rw [ip_rl_frame _ ip _ (by simp)]
      rw [email_rl_frame s _ _ (by simp)]
      exact hempty _
    have hlocked : is_email_locked (store_otp (is_ip_rate_limited
          ((is_email_rate_limited s (validate_email raw1)).2) ip).2
          (validate_email raw1) code) (validate_email raw1) = (false, 0) := by
      simp [is_email_locked,
        Store.getNat_none_of_data_none _ _ hd3]
    have hdotp : (store_otp (is_ip_rate_limited
          ((is_email_rate_limited s (validate_email raw1)).2) ip).2
          (validate_email raw1) code).data (RKey.otp (validate_email raw1))
        = some ⟨.vstr code, some (s.now + OTP_EXPIRY_SECONDS)⟩ := by
      unfold store_otp
      rw [Store.setex_data_self, hnowi]
    have hgetstr : (store_otp (is_ip_rate_limited
          ((is_email_rate_limited s (validate_email raw1)).2) ip).2
          (validate_email raw1) code).getStr (RKey.otp (validate_email raw1))
        = some code := by
      refine Store.getStr_of_data_window _ _ code (s.now + OTP_EXPIRY_SECONDS)
        hdotp ?_
      have : (store_otp (is_ip_rate_limited
          ((is_email_rate_limited s (validate_email raw1)).2) ip).2
          (validate_email raw1) code).now = s.now := by
        unfold store_otp
        rw [Store.setex_now, hnowi]
      rw [this]
      simp [OTP_EXPIRY_SECONDS]
    have hverify : verify_otp (store_otp (is_ip_rate_limited
          ((is_email_rate_limited s (validate_email raw1)).2) ip).2
          (validate_email raw1) code) (validate_email raw1) code
        = (true, (store_otp (is_ip_rate_limited
            ((is_email_rate_limited s (validate_email raw1)).2) ip).2
            (validate_email raw1) code).del (RKey.otp (validate_email raw1))) := by
      simp [verify_otp, hgetstr, hcode]
    simp [otpVerifyFlow, hlocked, hverify]

/-- Concrete instance of C10: an OTP requested as `A@X.com` verifies as
`a@x.COM`. -/
theorem claim_C10_witness :
    (otpRequestEndpoint emptyStore "A@X.com" "1.1.1.1" "123456").1
      = ReqResult.accepted (validate_email "A@X.com") OTP_EXPIRY_SECONDS ∧
    (otpVerifyEndpoint (otpRequestEndpoint emptyStore "A@X.com" "1.1.1.1"
        "123456").2 "a@x.COM" "123456").1
      = VerifyResult.success (validate_email "a@x.COM") :=
  (claim_C10_case_insensitive_identity "A@X.com" "a@x.COM" (by decide)).2.2
    emptyStore "1.1.1.1" "123456" (fun _ => rfl) (by decide)
